import Mathlib

/-!
Verification of the natural-language specification of the `ai-meeting-assistant`
repository against a shallow embedding of its Python sources.

The repository has four functional files:
  * `config/settings.py`  — the `Settings` class and module-level `settings` object;
  * `src/speech_to_text.py` — `SpeechToTextProcessor` (validation + Whisper call);
  * `src/summarizer.py`   — `MeetingSummarizer` (prompt build + chat-completion call);
  * `src/interface.py`    — `MeetingAssistantInterface` (orchestration, LangChain chain);
  * `app.py`              — startup wrapper (`main`).

Modelling conventions:
  * Python exceptions become the `PyErr` inductive; `str(e)` becomes `PyErr.msg`.
  * Fallible pure code returns `Except PyErr α`.
  * Code that can hit the network runs in `Eff α := Calls → Except PyErr α × Calls`:
    state-passing over a record of external-call counters, so that "issues no
    network call" is provable as "the counter state is unchanged".
  * The filesystem and both remote services are a `World` record of response
    functions, quantified over in the theorems (stubs in the spec's sense).
  * Machine-level details that no claim touches (audio bytes, HTTP transport,
    the Gradio widget tree) are not modelled.
-/

/-- Python exception values as raised by the code under `src/`: the constructor
records the dynamic exception class, the field its `str()` message. -/
inductive PyErr where
  | valueError (m : String)
  | attributeError (m : String)
  | keyError (k : String)
  | indexError (m : String)
  | validationError (m : String)
  | exception (m : String)
  | other (kind : String) (m : String)
deriving Repr, DecidableEq

/-- Python `str(e)` / `f"{e}"` on an exception: the message, except that
`KeyError` renders the missing key in quotes (CPython reprs the key). -/
def PyErr.msg : PyErr → String
  | .valueError m => m
  | .attributeError m => m
  | .keyError k => "\x27" ++ k ++ "\x27"
  | .indexError m => m
  | .validationError m => m
  | .exception m => m
  | .other _ m => m

/-- Counters for the effects the program performs against the outside world:
`open()` calls, Whisper transcription requests, chat-completion requests. -/
structure Calls where
  opens : Nat := 0
  transcriptions : Nat := 0
  chats : Nat := 0
deriving Repr, DecidableEq

/-- The initial counter state (no external call made yet). -/
def Calls.init : Calls := {}

/-- Effectful computations of the embedded program: state-passing over the
call counters, with Python exceptions as the error channel.  An error outcome
still reports the counters accumulated up to the raise. -/
def Eff (α : Type) : Type := Calls → Except PyErr α × Calls

/-- Return a value without touching the outside world. -/
def Eff.pure (a : α) : Eff α := fun c => (Except.ok a, c)

/-- Sequencing: run `x`; on success feed the value to `f`, on an exception
propagate it (counters accumulated so far are kept). -/
def Eff.bind (x : Eff α) (f : α → Eff β) : Eff β := fun c =>
  match x c with
  | (Except.ok a, c2) => f a c2
  | (Except.error e, c2) => (Except.error e, c2)

instance : Monad Eff where
  pure := Eff.pure
  bind := Eff.bind

/-- Python `raise e`. -/
def Eff.throw (e : PyErr) : Eff α := fun c => (Except.error e, c)

/-- Python `try: x except Exception as e: h e` — every `PyErr` is an
`Exception` subclass, so the handler always fires on an error. -/
def Eff.tryCatch (x : Eff α) (h : PyErr → Eff α) : Eff α := fun c =>
  match x c with
  | (Except.ok a, c2) => (Except.ok a, c2)
  | (Except.error e, c2) => h e c2

/-- Lift effect-free fallible code into `Eff` (no counter change). -/
def Eff.liftE (x : Except PyErr α) : Eff α := fun c => (x, c)

theorem Eff.run_pure (a : α) (c : Calls) : (Pure.pure a : Eff α) c = (Except.ok a, c) := rfl

theorem Eff.run_bind (x : Eff α) (f : α → Eff β) (c : Calls) :
    (x >>= f) c = match x c with
      | (Except.ok a, c2) => f a c2
      | (Except.error e, c2) => (Except.error e, c2) := rfl

/-! ## Python string and path primitives used by the sources -/

/-- Python `str.strip()`'s whitespace set restricted to ASCII (the inputs the
claims exercise contain no non-ASCII whitespace). -/
def pyWhitespace (c : Char) : Bool :=
  c = ' ' || c = '\t' || c = '\n' || c = '\r' || c = '\x0b' || c = '\x0c'

/-- Python `s.strip()`: drop leading and trailing whitespace. -/
def pyStrip (s : String) : String :=
  String.mk (((s.toList.dropWhile pyWhitespace).reverse.dropWhile pyWhitespace).reverse)

/-- Python truthiness of the Gradio `audio_file : Optional[str]` argument:
`not audio_file` is true exactly for `None` and the empty string. -/
def py_not : Option String → Bool
  | none => true
  | some s => s == ""

/-- Python `a or b` for two strings: `b` when `a` is falsy (empty). -/
def pyOr (a b : String) : String := if a = "" then b else a

/-- Python `x or d` where `x : Optional[str]`: `d` if `x` is `None` or empty. -/
def optOr (x : Option String) (d : String) : String :=
  match x with
  | some s => pyOr s d
  | none => d

/-- Python `str.lower()` on the ASCII file suffixes the code compares. -/
def pyLower (s : String) : String := String.mk (s.toList.map Char.toLower)

/-- `pathlib.Path(p).name`: the last `/`-separated component. -/
def pathName (p : String) : String :=
  String.mk ((p.toList.reverse.takeWhile (fun c => c ≠ '/')).reverse)

/-- `pathlib.Path(p).suffix`: from the last dot of the name, provided that dot
is neither the leading nor the trailing character of the name. -/
def pathSuffix (p : String) : String :=
  let rev := (pathName p).toList.reverse
  let after := rev.takeWhile (fun c => c ≠ '.')
  match rev.dropWhile (fun c => c ≠ '.') with
  | '.' :: before =>
      if before.isEmpty || after.isEmpty then "" else String.mk ('.' :: after.reverse)
  | _ => ""

/-! ## Template machinery: Python `str.format` and the LangChain f-string template

Both `settings.SUMMARY_PROMPT_TEMPLATE.format(meeting_text=...)` in
`summarizer.py` and `ChatPromptTemplate.from_template` in `interface.py`
interpret `\x7bname\x7d` placeholders in a template string.  The repository's
templates use no brace escaping (`\x7b\x7b`), no format specs and no automatic
field numbering, so the model covers plain named placeholders only and treats
an unmatched brace as the `ValueError` CPython raises for it. -/

/-- One parsed segment of a format template: a literal character or a named
placeholder. -/
inductive TmplSeg where
  | lit (c : Char)
  | var (name : String)
deriving Repr, DecidableEq

/-- Parse a template character list.  The second argument is `none` in literal
mode and `some acc` (reversed accumulated name) inside a placeholder. -/
def parseTmplAux : List Char → Option (List Char) → Except String (List TmplSeg)
  | [], none => Except.ok []
  | [], some _ => Except.error "Single \x27\x7b\x27 encountered in format string"
  | '{' :: rest, none => parseTmplAux rest (some [])
  | '}' :: _, none => Except.error "Single \x27\x7d\x27 encountered in format string"
  | c :: rest, none => (parseTmplAux rest none).map (fun segs => TmplSeg.lit c :: segs)
  | '}' :: rest, some acc =>
      (parseTmplAux rest none).map (fun segs => TmplSeg.var (String.mk acc.reverse) :: segs)
  | c :: rest, some acc => parseTmplAux rest (some (c :: acc))

/-- Parse a template string into segments, or the `ValueError` message. -/
def parseTmpl (t : String) : Except String (List TmplSeg) :=
  parseTmplAux t.toList none

/-- The placeholder names of a parsed template, in order of occurrence. -/
def tmplVars (segs : List TmplSeg) : List String :=
  segs.filterMap (fun s => match s with | TmplSeg.var n => some n | TmplSeg.lit _ => none)

/-- Render parsed segments under the single keyword binding `key := value`
(Python `template.format(key=value)`): a placeholder naming anything else
raises `KeyError`. -/
def formatSegs : List TmplSeg → String → String → Except PyErr String
  | [], _, _ => Except.ok ""
  | TmplSeg.lit c :: rest, k, v => (formatSegs rest k v).map (fun s => String.mk [c] ++ s)
  | TmplSeg.var n :: rest, k, v =>
      if n = k then (formatSegs rest k v).map (fun s => v ++ s)
      else Except.error (PyErr.keyError n)

/-- Python `template.format(key=value)` for one keyword argument. -/
def pyFormat (template key value : String) : Except PyErr String :=
  match parseTmpl template with
  | Except.error m => Except.error (PyErr.valueError m)
  | Except.ok segs => formatSegs segs key value

/-! ## `config/settings.py` -/

/-- The `Settings` class of `config/settings.py`.  Its class body defines only
`OPENAI_API_KEY`, `GPT_MODEL` and `LANGCHAIN_PROMPT_TEMPLATE`; other modules
also read `SUPPORTED_AUDIO_FORMATS`, `WHISPER_MODEL`, `TRANSCRIPTION_LANGUAGE`
and `SUMMARY_PROMPT_TEMPLATE` from the `settings` object.  Those reads are
Python attribute lookups that raise `AttributeError` when the attribute is
absent, so the model carries them as `Option` fields, `none` meaning
"not defined on the object". -/
structure Settings where
  OPENAI_API_KEY : String
  GPT_MODEL : String
  LANGCHAIN_PROMPT_TEMPLATE : String
  SUPPORTED_AUDIO_FORMATS : Option (List String)
  WHISPER_MODEL : Option String
  TRANSCRIPTION_LANGUAGE : Option String
  SUMMARY_PROMPT_TEMPLATE : Option String
deriving Repr, DecidableEq

/-- The `AttributeError` message CPython produces for a missing attribute on
the `settings` instance. -/
def no_attribute_msg (name : String) : String :=
  "\x27Settings\x27 object has no attribute \x27" ++ name ++ "\x27"

/-- Python attribute access `settings.<name>` for the four attributes the
class body does not define: value when present, `AttributeError` otherwise. -/
def attrOrError (x : Option α) (name : String) : Except PyErr α :=
  match x with
  | some v => Except.ok v
  | none => Except.error (PyErr.attributeError (no_attribute_msg name))

/-- `config/settings.py` evaluated under environment `env`
(`os.getenv(name, default)` with the file's defaults); the class body defines
no further attributes, hence the four `none` fields. -/
def Settings.ofEnv (env : String → Option String) : Settings where
  OPENAI_API_KEY := (env "OPENAI_API_KEY").getD ""
  GPT_MODEL := (env "GPT_MODEL").getD "gpt-3.5-turbo"
  LANGCHAIN_PROMPT_TEMPLATE :=
    (env "LANGCHAIN_PROMPT_TEMPLATE").getD "Summarize the meeting notes: {text}"
  SUPPORTED_AUDIO_FORMATS := none
  WHISPER_MODEL := none
  TRANSCRIPTION_LANGUAGE := none
  SUMMARY_PROMPT_TEMPLATE := none

/-- The module-level `settings` object under an empty environment (all
defaults; in particular the credential defaults to the empty string). -/
def settings0 : Settings := Settings.ofEnv (fun _ => none)

/-- The `settings` object when only `OPENAI_API_KEY=k` is exported. -/
def settingsK : Settings :=
  Settings.ofEnv (fun n => if n = "OPENAI_API_KEY" then some "k" else none)

/-! ## The outside world: filesystem and remote services -/

/-- One message of a chat-completion request or response. -/
structure ChatMessage where
  role : String
  content : String
deriving Repr, DecidableEq

/-- The chat-completion request `summarizer.py` issues.  `temperature` is the
float literal `0.3`, recorded exactly in tenths to keep the model decidable. -/
structure ChatRequest where
  model : String
  messages : List ChatMessage
  temperature_tenths : Nat
  max_tokens : Nat
deriving Repr, DecidableEq

/-- One element of `response.choices`. -/
structure ChatChoice where
  message : ChatMessage
deriving Repr, DecidableEq

/-- A chat-completion response: the `choices` list. -/
structure ChatResponse where
  choices : List ChatChoice
deriving Repr, DecidableEq

/-- Python `response.choices[0]`: `IndexError` on an empty list. -/
def listGet0 : List α → Except PyErr α
  | [] => Except.error (PyErr.indexError "list index out of range")
  | a :: _ => Except.ok a

/-- The environment of one request: what the filesystem and the two remote
endpoints would answer.  Theorems quantify over it; concrete instances play
the role of the spec's call-count stubs. -/
structure World where
  fileExists : String → Bool
  openResult : String → Except PyErr Unit
  transcriptionResponse : String → String → String → Except PyErr String
  chatResponse : ChatRequest → Except PyErr ChatResponse

/-- `open(path, "rb")`: counts one open attempt, then the world decides. -/
def openFile (w : World) (p : String) : Eff Unit := fun c =>
  (w.openResult p, { c with opens := c.opens + 1 })

/-- `openai.audio.transcriptions.create(model=…, file=…, language=…)`:
counts one transcription network call; the world supplies `transcript.text`
or the raised exception. -/
def transcriptions_create (w : World) (model file language : String) : Eff String := fun c =>
  (w.transcriptionResponse model file language,
   { c with transcriptions := c.transcriptions + 1 })

/-- `openai.chat.completions.create(...)`: counts one chat network call. -/
def chat_completions_create (w : World) (req : ChatRequest) : Eff ChatResponse := fun c =>
  (w.chatResponse req, { c with chats := c.chats + 1 })

/-! ## `src/speech_to_text.py` -/

/-- `SpeechToTextProcessor.validate_audio_file` (lines 39–61): `False` when the
file does not exist; otherwise tests the lower-cased suffix against
`settings.SUPPORTED_AUDIO_FORMATS` — a read that raises `AttributeError` when
the attribute is missing from the settings object. -/
def validate_audio_file (s : Settings) (fileExists : String → Bool)
    (file_path : String) : Except PyErr Bool :=
  if !fileExists file_path then
    Except.ok false
  else
    match attrOrError s.SUPPORTED_AUDIO_FORMATS "SUPPORTED_AUDIO_FORMATS" with
    | Except.error e => Except.error e
    | Except.ok formats =>
        if !formats.contains (pyLower (pathSuffix file_path)) then
          Except.ok false
        else
          Except.ok true

/-- Body of the `try` block of `transcribe` (lines 81–94): open the file for
binary read, evaluate the keyword arguments (two further settings reads), then
issue the remote transcription call and return `transcript.text`. -/
def transcribe_try_body (s : Settings) (w : World) (audio_file_path : String) : Eff String := do
  let _ ← openFile w audio_file_path
  let model ← Eff.liftE (attrOrError s.WHISPER_MODEL "WHISPER_MODEL")
  let language ← Eff.liftE (attrOrError s.TRANSCRIPTION_LANGUAGE "TRANSCRIPTION_LANGUAGE")
  transcriptions_create w model audio_file_path language

/-- `SpeechToTextProcessor.transcribe` (lines 63–98).  The validation call sits
outside the `try`: a `False` result raises `ValueError` and an exception raised
by validation itself propagates unwrapped; only exceptions from the `try` body
are re-raised as `Exception("Transcription failed: ...")`. -/
def transcribe (s : Settings) (w : World) (audio_file_path : String) : Eff String :=
  match validate_audio_file s w.fileExists audio_file_path with
  | Except.error e => Eff.throw e
  | Except.ok false => Eff.throw (PyErr.valueError ("Invalid audio file: " ++ audio_file_path))
  | Except.ok true =>
      Eff.tryCatch (transcribe_try_body s w audio_file_path)
        (fun e => Eff.throw (PyErr.exception ("Transcription failed: " ++ e.msg)))

/-! ## `src/summarizer.py` -/

/-- The fixed system instruction of `summarize` (line 65). -/
def arabic_system_instruction : String :=
  "أنت مساعد ذكي متخصص في تلخيص الاجتماعات باللغة العربية."

/-- The `ValueError` message of `summarize` for blank input (line 53). -/
def empty_text_error : String := "Meeting text cannot be empty"

/-- Body of the `try` block of `summarize` (lines 55–79): read the prompt
template from settings (missing on the shipped settings object), fill it with
`meeting_text`, issue one chat-completion call with the fixed system
instruction, `temperature=0.3`, `max_tokens=1000`, and return
`response.choices[0].message.content`. -/
def summarize_try_body (s : Settings) (w : World) (model meeting_text : String) : Eff String := do
  let template ← Eff.liftE (attrOrError s.SUMMARY_PROMPT_TEMPLATE "SUMMARY_PROMPT_TEMPLATE")
  let prompt ← Eff.liftE (pyFormat template "meeting_text" meeting_text)
  let response ← chat_completions_create w
    { model := model
      messages :=
        [ { role := "system", content := arabic_system_instruction },
          { role := "user", content := prompt } ]
      temperature_tenths := 3
      max_tokens := 1000 }
  let choice ← Eff.liftE (listGet0 response.choices)
  Pure.pure choice.message.content

/-- `MeetingSummarizer.summarize` (lines 38–83): blank input (empty, or empty
after stripping) raises `ValueError` before the `try`; exceptions inside the
`try` are re-raised as `Exception("Summarization failed: ...")`. -/
def summarize (s : Settings) (w : World) (model meeting_text : String) : Eff String :=
  if meeting_text == "" || pyStrip meeting_text == "" then
    Eff.throw (PyErr.valueError empty_text_error)
  else
    Eff.tryCatch (summarize_try_body s w model meeting_text)
      (fun e => Eff.throw (PyErr.exception ("Summarization failed: " ++ e.msg)))

/-! ## Constructors (`__init__`) and `app.py` startup -/

/-- The `ValueError` message both constructors raise for a missing credential. -/
def api_key_error_message : String :=
  "OpenAI API key not provided. Set OPENAI_API_KEY environment variable or pass api_key parameter."

/-- `SpeechToTextProcessor.__init__` (lines 21–37): resolve
`api_key or settings.OPENAI_API_KEY`; raise `ValueError` when the result is
falsy, otherwise keep it. -/
def SpeechToTextProcessor_init (s : Settings) (api_key : Option String) : Except PyErr String :=
  let key := optOr api_key s.OPENAI_API_KEY
  if key = "" then Except.error (PyErr.valueError api_key_error_message)
  else Except.ok key

/-- `MeetingSummarizer.__init__` (lines 18–36): resolve key and model with the
same `or`-defaults; raise `ValueError` on a falsy key.  Returns (key, model). -/
def MeetingSummarizer_init (s : Settings) (api_key model : Option String) :
    Except PyErr (String × String) :=
  let key := optOr api_key s.OPENAI_API_KEY
  let mdl := optOr model s.GPT_MODEL
  if key = "" then Except.error (PyErr.valueError api_key_error_message)
  else Except.ok (key, mdl)

/-! ## The LangChain chain of `src/interface.py` -/

/-- The parsed `ChatPromptTemplate` of `_setup_langchain_chain`: the segments
of the f-string template; `input_variables` is derived from them. -/
structure LCPromptTemplate where
  segs : List TmplSeg
deriving Repr, DecidableEq

/-- The `input_variables` the prompt template requires. -/
def LCPromptTemplate.input_variables (t : LCPromptTemplate) : List String :=
  tmplVars t.segs

/-- `ChatPromptTemplate.from_template` (line 33): parses the f-string
template, raising `ValueError` on a malformed one. -/
def ChatPromptTemplate_from_template (t : String) : Except PyErr LCPromptTemplate :=
  match parseTmpl t with
  | Except.error m => Except.error (PyErr.valueError m)
  | Except.ok segs => Except.ok { segs := segs }

/-- `self.chain.invoke(\x7b"meeting_text": meeting_text\x7d)` for the chain
built at lines 35–39, `\x7b"meeting_text": RunnablePassthrough()\x7d | prompt
| StrOutputParser()`.  The first stage maps the input dict `d` to
`\x7b"meeting_text": d\x7d`, so the prompt stage sees exactly the key
`meeting_text`; any other template variable is reported missing (`KeyError`).
When every variable is bound, the prompt stage produces a `ChatPromptValue`
(a message list, not a string) and the output-parser stage rejects it, because
`StrOutputParser` — composed here directly after the prompt, with no model in
between — builds `Generation(text=input)` whose `text` field accepts only
strings.  Either way the chain can never return a summary string. -/
def chain_invoke (t : LCPromptTemplate) (_meeting_text : String) : Except PyErr String :=
  match t.input_variables.filter (fun v => v ≠ "meeting_text") with
  | v :: _ => Except.error (PyErr.keyError v)
  | [] => Except.error (PyErr.validationError
      "Generation text field expected str, received ChatPromptValue")

/-- The chain as the `Eff`-level summarization step `process_meeting` invokes:
no remote call is involved (the chain contains no language model), so the
counters are untouched. -/
def chain_runnable (t : LCPromptTemplate) : String → Eff String :=
  fun meeting_text => Eff.liftE (chain_invoke t meeting_text)

/-- `_setup_langchain_chain` (lines 30–45): build the prompt and chain inside
a `try`; on any exception fall back to `self.chain = None`. -/
def setup_langchain_chain (s : Settings) : Option LCPromptTemplate :=
  match ChatPromptTemplate_from_template s.LANGCHAIN_PROMPT_TEMPLATE with
  | Except.ok t => some t
  | Except.error _ => none

/-- The parsed shipped default template `"Summarize the meeting notes: {text}"`
(the chain `_setup_langchain_chain` installs under an empty environment). -/
def lcTemplate0 : LCPromptTemplate :=
  (setup_langchain_chain settings0).getD { segs := [] }

/-! ## `src/interface.py`: the orchestrator -/

/-- The fixed localized warning `process_meeting` returns for a missing audio
reference (line 58; the source file stores the literal double-encoded, and the
constant reproduces the file's characters exactly). -/
def upload_warning : String :=
  "âš ï¸ Ø§Ù„Ø±Ø¬Ø§Ø¡ Ø±ÙØ¹ Ù…Ù„Ù ØµÙˆØªÙŠ Ø£ÙˆÙ„Ø§Ù‹."

/-- The prefix of the flattened error string of `process_meeting` (line 76,
before the interpolated `str(e)`; same double-encoding remark). -/
def processing_error_head : String :=
  "Ø­Ø¯Ø« Ø®Ø·Ø£ Ø£Ø«Ù†Ø§Ø¡ Ø§Ù„Ù…Ø¹Ø§Ù„Ø¬Ø©: "

/-- Step 2 of `process_meeting` (lines 67–70): route through the chain when it
was configured, else call the summarizer directly. -/
def summarization_step (chain : Option (String → Eff String))
    (summarizer : String → Eff String) (meeting_text : String) : Eff String :=
  match chain with
  | some ch => ch meeting_text
  | none => summarizer meeting_text

/-- `MeetingAssistantInterface.process_meeting` (lines 47–78), parametrized
over the two downstream steps exactly as the spec's stub-based properties
demand: falsy audio short-circuits to the fixed warning; otherwise transcribe,
then summarize, inside a catch-all that flattens any exception to
`(error string, "")`. -/
def process_meeting (transcriber : String → Eff String)
    (chain : Option (String → Eff String)) (summarizer : String → Eff String)
    (audio_file : Option String) : Eff (String × String) :=
  if py_not audio_file then
    Pure.pure (upload_warning, "")
  else
    match audio_file with
    | none => Pure.pure (upload_warning, "")
    | some a =>
        Eff.tryCatch
          (do
            let meeting_text ← transcriber a
            let summary ← summarization_step chain summarizer meeting_text
            Pure.pure (meeting_text, summary))
          (fun e => Pure.pure (processing_error_head ++ e.msg, ""))

/-- The request-scoped attributes of a constructed
`MeetingAssistantInterface`. -/
structure MeetingAssistantInterface where
  stt_api_key : String
  summarizer_api_key : String
  summarizer_model : String
  chain : Option LCPromptTemplate
deriving Repr, DecidableEq

/-- `MeetingAssistantInterface.__init__` (lines 24–28): construct both clients
(either raise propagates) and set up the chain. -/
def MeetingAssistantInterface_init (s : Settings) : Except PyErr MeetingAssistantInterface :=
  match SpeechToTextProcessor_init s none with
  | Except.error e => Except.error e
  | Except.ok sttKey =>
      match MeetingSummarizer_init s none none with
      | Except.error e => Except.error e
      | Except.ok (sumKey, sumModel) =>
          Except.ok
            { stt_api_key := sttKey
              summarizer_api_key := sumKey
              summarizer_model := sumModel
              chain := setup_langchain_chain s }

/-- `process_meeting` of a constructed interface, with the real components
plugged in (transcriber from `speech_to_text.py`, the installed chain, the
summarizer from `summarizer.py`). -/
def MeetingAssistantInterface.process (i : MeetingAssistantInterface) (s : Settings)
    (w : World) (audio_file : Option String) : Eff (String × String) :=
  process_meeting (transcribe s w) (i.chain.map chain_runnable)
    (summarize s w i.summarizer_model) audio_file

/-! ## `app.py` -/

/-- Outcome of `app.py`'s `main`: either the UI launched or the process
terminated via `sys.exit(code)`. -/
inductive StartupOutcome where
  | launched
  | exitCode (code : Nat)
deriving Repr, DecidableEq

/-- `app.py` `main` (lines 27–40): construct the interface inside a `try`; any
exception is logged and the process exits with code 1. -/
def app_main (s : Settings) : StartupOutcome :=
  match MeetingAssistantInterface_init s with
  | Except.error _ => StartupOutcome.exitCode 1
  | Except.ok _ => StartupOutcome.launched

/-- The spec's description of the optional prompt-composition step, stated for
the refinement claim C5 in the spec's own words: "a single-stage template
substitution of the transcript into the configured template followed by
passthrough, producing the filled template as the summary slot".  Every
placeholder of the template is replaced by the transcript; `none` when the
template does not parse. -/
def spec_prompt_fill (template transcript : String) : Option String :=
  match parseTmpl template with
  | Except.error _ => none
  | Except.ok segs =>
      some (String.join (segs.map (fun sg =>
        match sg with
        | TmplSeg.lit c => String.mk [c]
        | TmplSeg.var _ => transcript)))

/-! ## Concrete worlds and settings used by witnesses and counterexamples -/

/-- A world in which no file exists; remote stubs are inert. -/
def W0 : World where
  fileExists := fun _ => false
  openResult := fun _ => Except.ok ()
  transcriptionResponse := fun _ _ _ => Except.ok ""
  chatResponse := fun _ => Except.error (PyErr.other "RuntimeError" "network stub invoked")

/-- A world in which every file exists; remote stubs are inert. -/
def Wall : World where
  fileExists := fun _ => true
  openResult := fun _ => Except.ok ()
  transcriptionResponse := fun _ _ _ => Except.ok "tx"
  chatResponse := fun _ => Except.error (PyErr.other "RuntimeError" "network stub invoked")

/-- A world in which every file exists and the remote transcription endpoint
raises (an API failure with message "boom"). -/
def W_err : World where
  fileExists := fun _ => true
  openResult := fun _ => Except.ok ()
  transcriptionResponse := fun _ _ _ => Except.error (PyErr.other "APIConnectionError" "boom")
  chatResponse := fun _ => Except.error (PyErr.other "RuntimeError" "network stub invoked")

/-- A hypothetical settings object extended with the attributes the pipeline
reads (`transcribe` cannot reach its remote call under the shipped `settings0`,
which lacks them — see the C10 theorem); used to exercise the `try`-block
wrapping of `transcribe`. -/
def settingsHyp : Settings :=
  { settings0 with
      SUPPORTED_AUDIO_FORMATS := some [".mp3", ".wav"]
      WHISPER_MODEL := some "whisper-1"
      TRANSCRIPTION_LANGUAGE := some "ar" }

/-- Any `Eff.tryCatch` whose handler returns a pure value yields an `ok`
result: this is the shape of the orchestrator's catch-all. -/
theorem Eff.tryCatch_handler_pure (x : Eff α) (f : PyErr → α) (c : Calls) :
    ∃ a c2, Eff.tryCatch x (fun e => Pure.pure (f e)) c = (Except.ok a, c2) := by
  rcases hx : x c with ⟨r, c2⟩
  cases r with
  | ok a => exact ⟨a, c2, by simp [Eff.tryCatch, hx]⟩
  | error e => exact ⟨f e, c2, by simp [Eff.tryCatch, hx, Eff.run_pure]⟩

/-- C1: for every audio reference and every behaviour of the downstream steps,
`process_meeting` always returns an `ok` two-string pair; and whenever the
transcription step, or the summarization step after a successful
transcription, raises an exception, the returned pair is the localized error
string carrying that exception's message together with an empty summary. -/
theorem process_meeting_flattens_errors
    (tc : String → Eff String) (chain : Option (String → Eff String))
    (sm : String → Eff String) (audio : Option String) (cnt : Calls) :
    (∃ out cnt2, process_meeting tc chain sm audio cnt = (Except.ok out, cnt2)) ∧
    (∀ a, audio = some a → py_not (some a) = false →
      (∀ e cnt2, tc a cnt = (Except.error e, cnt2) →
        process_meeting tc chain sm audio cnt
          = (Except.ok (processing_error_head ++ e.msg, ""), cnt2)) ∧
      (∀ t cntT e cnt2, tc a cnt = (Except.ok t, cntT) →
        summarization_step chain sm t cntT = (Except.error e, cnt2) →
        process_meeting tc chain sm audio cnt
          = (Except.ok (processing_error_head ++ e.msg, ""), cnt2))) := by
  constructor
  · cases audio with
    | none => exact ⟨(upload_warning, ""), cnt, rfl⟩
    | some a =>
      cases hf : py_not (some a) with
      | true => exact ⟨(upload_warning, ""), cnt, by simp [process_meeting, hf, Eff.run_pure]⟩
      | false =>
        simp only [process_meeting, hf, Bool.false_eq_true, if_false]
        exact Eff.tryCatch_handler_pure _ (fun e => (processing_error_head ++ e.msg, "")) cnt
  · rintro a rfl hfalse
    constructor
    · intro e cnt2 htc
      simp [process_meeting, hfalse, Eff.tryCatch, Eff.run_bind, htc, Eff.run_pure]
    · intro t cntT e cnt2 htc hsum
      simp [process_meeting, hfalse, Eff.tryCatch, Eff.run_bind, htc, hsum, Eff.run_pure]

/-- Witness for C1: a transcription stub raising `Exception("boom")`, and a
summarization stub raising `Exception("sboom")` after a successful
transcription, each make `process_meeting` return the flattened error pair
instead of raising. -/
theorem process_meeting_flattens_errors_witness :
    process_meeting (fun _ => Eff.throw (PyErr.exception "boom")) none
      (fun _ => Pure.pure "S") (some "a.mp3") Calls.init
      = (Except.ok (processing_error_head ++ "boom", ""), Calls.init) ∧
    process_meeting (fun _ => Pure.pure "t") none
      (fun _ => Eff.throw (PyErr.exception "sboom")) (some "a.mp3") Calls.init
      = (Except.ok (processing_error_head ++ "sboom", ""), Calls.init) :=
  ⟨((process_meeting_flattens_errors (fun _ => Eff.throw (PyErr.exception "boom")) none
      (fun _ => Pure.pure "S") (some "a.mp3") Calls.init).2 "a.mp3" rfl rfl).1
    (PyErr.exception "boom") Calls.init rfl,
   ((process_meeting_flattens_errors (fun _ => Pure.pure "t") none
      (fun _ => Eff.throw (PyErr.exception "sboom")) (some "a.mp3") Calls.init).2
      "a.mp3" rfl rfl).2 "t" Calls.init (PyErr.exception "sboom") Calls.init rfl rfl⟩

/-- C2: for a `None` or empty audio reference, `process_meeting` returns the
fixed localized warning with an empty summary, for every behaviour of the two
downstream steps, and the external-call counters are unchanged — zero calls to
either client. -/
theorem process_meeting_missing_input
    (tc : String → Eff String) (chain : Option (String → Eff String))
    (sm : String → Eff String) (cnt : Calls) :
    process_meeting tc chain sm none cnt = (Except.ok (upload_warning, ""), cnt) ∧
    process_meeting tc chain sm (some "") cnt = (Except.ok (upload_warning, ""), cnt) :=
  ⟨rfl, rfl⟩

/-- Counterexample for C3 as stated: for a nonexistent file, `transcribe`
raises `ValueError("Invalid audio file: ...")` — an exception that escapes
`transcribe` and is not of the generic `Exception("Transcription failed: …")`
form, because the validation call sits outside the `try` block. -/
theorem transcribe_value_error_escapes_cex :
    transcribe settings0 W0 "missing.mp3" Calls.init
      = (Except.error (PyErr.valueError "Invalid audio file: missing.mp3"), Calls.init) ∧
    ¬ ∃ m c2, transcribe settings0 W0 "missing.mp3" Calls.init
      = (Except.error (PyErr.exception ("Transcription failed: " ++ m)), c2) := by
  refine ⟨rfl, ?_⟩
  rintro ⟨m, c2, h⟩
  rw [show transcribe settings0 W0 "missing.mp3" Calls.init
      = (Except.error (PyErr.valueError "Invalid audio file: missing.mp3"), Calls.init)
    from rfl] at h
  simp at h

/-- C3 amended: only exceptions raised inside the `try` block (file open,
settings reads for the remote call, the remote call itself) are re-raised as
`Exception("Transcription failed: " ++ original message)`; a failed validation
raises `ValueError("Invalid audio file: ...")` unwrapped, and an exception
raised during validation itself propagates unchanged — and these three are the
only ways an exception escapes `transcribe`. -/
theorem transcribe_error_policy (s : Settings) (w : World) (p : String) (cnt : Calls) :
    (∀ e cnt2, transcribe s w p cnt = (Except.error e, cnt2) →
      e = PyErr.valueError ("Invalid audio file: " ++ p)
      ∨ validate_audio_file s w.fileExists p = Except.error e
      ∨ ∃ m, e = PyErr.exception ("Transcription failed: " ++ m)) ∧
    (validate_audio_file s w.fileExists p = Except.ok true →
      ∀ e cnt2, transcribe_try_body s w p cnt = (Except.error e, cnt2) →
      transcribe s w p cnt
        = (Except.error (PyErr.exception ("Transcription failed: " ++ e.msg)), cnt2)) ∧
    (validate_audio_file s w.fileExists p = Except.ok false →
      transcribe s w p cnt
        = (Except.error (PyErr.valueError ("Invalid audio file: " ++ p)), cnt)) := by
  refine ⟨?_, ?_, ?_⟩
  · intro e cnt2 h
    rcases hv : validate_audio_file s w.fileExists p with ev | b
    · right; left
      simp only [transcribe, hv, Eff.throw] at h
      simp only [Prod.mk.injEq, Except.error.injEq] at h
      exact congrArg Except.error h.1
    · cases b with
      | false =>
        left
        simp only [transcribe, hv, Eff.throw] at h
        simp only [Prod.mk.injEq, Except.error.injEq] at h
        exact h.1.symm
      | true =>
        right; right
        simp only [transcribe, hv, Eff.tryCatch] at h
        rcases hb : transcribe_try_body s w p cnt with ⟨r, c3⟩
        rw [hb] at h
        cases r with
        | ok a => simp at h
        | error e2 =>
          simp only [Eff.throw, Prod.mk.injEq, Except.error.injEq] at h
          exact ⟨e2.msg, h.1.symm⟩
  · intro hv e cnt2 hb
    simp only [transcribe, hv, Eff.tryCatch, hb, Eff.throw]
  · intro hv
    simp only [transcribe, hv, Eff.throw]

/-- Witness for C3's amended theorem, exercising all three conjuncts: with
settings carrying the audio-format attributes and a remote endpoint that
raises "boom", `transcribe` re-raises `Exception("Transcription failed:
boom")` after one open and one remote call; a failed validation yields the
unwrapped `ValueError`; and the escape taxonomy holds at that `ValueError`. -/
theorem transcribe_error_policy_witness :
    transcribe settingsHyp W_err "a.mp3" Calls.init
      = (Except.error (PyErr.exception "Transcription failed: boom"),
         { opens := 1, transcriptions := 1, chats := 0 }) ∧
    transcribe settings0 W0 "missing.mp3" Calls.init
      = (Except.error (PyErr.valueError ("Invalid audio file: " ++ "missing.mp3")),
         Calls.init) ∧
    (PyErr.valueError "Invalid audio file: missing.mp3"
        = PyErr.valueError ("Invalid audio file: " ++ "missing.mp3")
      ∨ validate_audio_file settings0 W0.fileExists "missing.mp3"
        = Except.error (PyErr.valueError "Invalid audio file: missing.mp3")
      ∨ ∃ m, PyErr.valueError "Invalid audio file: missing.mp3"
        = PyErr.exception ("Transcription failed: " ++ m)) :=
  ⟨(transcribe_error_policy settingsHyp W_err "a.mp3" Calls.init).2.1 rfl
    (PyErr.other "APIConnectionError" "boom")
    { opens := 1, transcriptions := 1, chats := 0 } rfl,
   (transcribe_error_policy settings0 W0 "missing.mp3" Calls.init).2.2 rfl,
   (transcribe_error_policy settings0 W0 "missing.mp3" Calls.init).1
    (PyErr.valueError "Invalid audio file: missing.mp3") Calls.init rfl⟩

/-- C4 evaluated on the code: for a nonexistent path `transcribe` does raise
the InvalidInput `ValueError` before any network call, but for an existing
file whose extension is not an audio one (`notes.txt`) it raises
`AttributeError` — the validation reads `settings.SUPPORTED_AUDIO_FORMATS`,
which `config/settings.py` never defines — instead of the InvalidInput error
the claim states.  No network call happens in either case (counters
unchanged). -/
theorem transcribe_missing_formats_attribute_eval :
    transcribe settings0 W0 "missing.mp3" Calls.init
      = (Except.error (PyErr.valueError "Invalid audio file: missing.mp3"), Calls.init) ∧
    transcribe settings0 Wall "notes.txt" Calls.init
      = (Except.error (PyErr.attributeError (no_attribute_msg "SUPPORTED_AUDIO_FORMATS")),
         Calls.init) :=
  ⟨rfl, rfl⟩

/-- Counterexample for C5 as stated: the chain is configured successfully at
startup (`from_template` accepts the default template), the spec's
single-stage prompt fill of transcript `"t"` produces
`"Summarize the meeting notes: t"`, yet invoking the chain on `"t"` does not
return that filled template — it raises `KeyError("text")`, since the default
template's placeholder is `text` while the chain binds only `meeting_text`. -/
theorem chain_vs_prompt_fill_cex :
    setup_langchain_chain settings0 = some lcTemplate0 ∧
    spec_prompt_fill settings0.LANGCHAIN_PROMPT_TEMPLATE "t"
      = some "Summarize the meeting notes: t" ∧
    chain_invoke lcTemplate0 "t" = Except.error (PyErr.keyError "text") ∧
    chain_invoke lcTemplate0 "t" ≠ Except.ok "Summarize the meeting notes: t" := by
  refine ⟨rfl, rfl, rfl, ?_⟩
  intro h
  rw [show chain_invoke lcTemplate0 "t" = Except.error (PyErr.keyError "text") from rfl] at h
  cases h

/-- C5 amended: the prompt-composition chain is configured successfully at
startup, but routing a transcript through it is not equivalent to the
Summarization Client's template fill — with the shipped template every
invocation fails with `KeyError("text")` (the template variable `text` is
never bound; the chain supplies only `meeting_text`), so the chain never
produces a summary string. -/
theorem chain_invoke_always_missing_text :
    setup_langchain_chain settings0 = some lcTemplate0 ∧
    ∀ transcript, chain_invoke lcTemplate0 transcript
      = Except.error (PyErr.keyError "text") :=
  ⟨rfl, fun _ => rfl⟩

/-- Counterexample for C6 as stated: on the shipped configuration the
constructed interface carries the LangChain chain (it is configured
successfully), so with the Summarization Client stubbed to return `"S"` and a
transcription step yielding `"t"`, `process_meeting` routes through the chain,
which raises; the result is the flattened error pair, not `("t", "S")`. -/
theorem process_meeting_chain_active_cex :
    MeetingAssistantInterface_init settingsK
      = Except.ok
          { stt_api_key := "k", summarizer_api_key := "k",
            summarizer_model := "gpt-3.5-turbo", chain := some lcTemplate0 } ∧
    process_meeting (fun _ => Pure.pure "t") (some (chain_runnable lcTemplate0))
        (fun _ => Pure.pure "S") (some "a.mp3") Calls.init
      = (Except.ok (processing_error_head ++ "\x27text\x27", ""), Calls.init) ∧
    processing_error_head ++ "\x27text\x27" ≠ "t" := by
  refine ⟨rfl, rfl, ?_⟩
  decide

/-- C6 amended: when the prompt-composition chain is not configured
(`self.chain is None`, the fallback `_setup_langchain_chain` installs on a
construction failure), a transcription step yielding a non-empty transcript
`t` and a Summarization Client stub returning `S` make `process_meeting`
return exactly `(t, S)`. -/
theorem process_meeting_direct_path
    (tc : String → Eff String) (S a t : String) (cnt cntT : Calls)
    (ha : py_not (some a) = false) (htc : tc a cnt = (Except.ok t, cntT))
    (_htne : t ≠ "") :
    process_meeting tc none (fun _ => Pure.pure S) (some a) cnt
      = (Except.ok (t, S), cntT) := by
  simp [process_meeting, ha, Eff.tryCatch, Eff.run_bind, htc, summarization_step,
    Eff.run_pure]

/-- Witness for C6's amended theorem at a concrete stub pair. -/
theorem process_meeting_direct_path_witness :
    process_meeting (fun _ => Pure.pure "t") none (fun _ => Pure.pure "S")
      (some "a.mp3") Calls.init = (Except.ok ("t", "S"), Calls.init) :=
  process_meeting_direct_path (fun _ => Pure.pure "t") "S" "a.mp3" "t"
    Calls.init Calls.init rfl rfl (by decide)

/-- C7: blank input — empty or whitespace-only, i.e. empty after stripping —
makes `summarize` raise `ValueError("Meeting text cannot be empty")` for every
settings object and every world, with the call counters unchanged: no network
call is issued. -/
theorem summarize_rejects_blank_text (s : Settings) (w : World) (model text : String)
    (cnt : Calls) (h : pyStrip text = "") :
    summarize s w model text cnt = (Except.error (PyErr.valueError empty_text_error), cnt) := by
  have hc : (text == "" || pyStrip text == "") = true := by
    simp [h]
  simp [summarize, hc, Eff.throw]

/-- Witness for C7 at whitespace-only input. -/
theorem summarize_rejects_blank_text_witness :
    summarize settings0 W0 "gpt-3.5-turbo" "  \t " Calls.init
      = (Except.error (PyErr.valueError empty_text_error), Calls.init) :=
  summarize_rejects_blank_text settings0 W0 "gpt-3.5-turbo" "  \t " Calls.init (by decide)

/-- C8 evaluated on the code: for the non-empty text `"hello"`, under the
shipped settings and any world, `summarize` raises
`Exception("Summarization failed: 'Settings' object has no attribute
'SUMMARY_PROMPT_TEMPLATE'")` — the prompt template read fails inside the
`try` — and the counters are unchanged: no chat-completion call is ever
issued, so no prompt is built, no request with temperature 0.3 and
max_tokens 1000 goes out, and no completion content is returned. -/
theorem summarize_missing_template_eval (w : World) (model : String) (cnt : Calls) :
    summarize settings0 w model "hello" cnt
      = (Except.error (PyErr.exception
          ("Summarization failed: " ++ no_attribute_msg "SUMMARY_PROMPT_TEMPLATE")), cnt) :=
  rfl

/-- C9: an empty credential at construction time makes both client
constructors raise `ValueError`, the interface constructor propagate it, and
`app.py`'s `main` exit with code 1. -/
theorem empty_api_key_fatal_startup (s : Settings) (h : s.OPENAI_API_KEY = "") :
    SpeechToTextProcessor_init s none = Except.error (PyErr.valueError api_key_error_message) ∧
    MeetingSummarizer_init s none none
      = Except.error (PyErr.valueError api_key_error_message) ∧
    MeetingAssistantInterface_init s
      = Except.error (PyErr.valueError api_key_error_message) ∧
    app_main s = StartupOutcome.exitCode 1 := by
  have h1 : SpeechToTextProcessor_init s none
      = Except.error (PyErr.valueError api_key_error_message) := by
    simp [SpeechToTextProcessor_init, optOr, h]
  have h2 : MeetingSummarizer_init s none none
      = Except.error (PyErr.valueError api_key_error_message) := by
    simp [MeetingSummarizer_init, optOr, h]
  refine ⟨h1, h2, ?_, ?_⟩
  · simp [MeetingAssistantInterface_init, h1]
  · simp [app_main, MeetingAssistantInterface_init, h1]

/-- Witness for C9: the shipped settings under an empty environment have an
empty credential, so startup exits with code 1. -/
theorem empty_api_key_fatal_startup_witness :
    SpeechToTextProcessor_init settings0 none
      = Except.error (PyErr.valueError api_key_error_message) ∧
    MeetingSummarizer_init settings0 none none
      = Except.error (PyErr.valueError api_key_error_message) ∧
    MeetingAssistantInterface_init settings0
      = Except.error (PyErr.valueError api_key_error_message) ∧
    app_main settings0 = StartupOutcome.exitCode 1 :=
  empty_api_key_fatal_startup settings0 rfl

/-- C10: the shipped settings object defines none of
`SUPPORTED_AUDIO_FORMATS`, `WHISPER_MODEL`, `TRANSCRIPTION_LANGUAGE`,
`SUMMARY_PROMPT_TEMPLATE`; consequently, for every path to an existing file
`transcribe` raises the `AttributeError` from the validation's settings read
before any remote call (counters unchanged), and for every non-blank text
`summarize` raises — the `AttributeError` surfaces wrapped as
`Exception("Summarization failed: ...")` — before any chat-completion request
is issued (counters unchanged). -/
theorem settings_missing_attributes_consequences (w : World) (p model text : String)
    (cnt : Calls) (hex : w.fileExists p = true) (ht : pyStrip text ≠ "") :
    settings0.SUPPORTED_AUDIO_FORMATS = none ∧
    settings0.WHISPER_MODEL = none ∧
    settings0.TRANSCRIPTION_LANGUAGE = none ∧
    settings0.SUMMARY_PROMPT_TEMPLATE = none ∧
    transcribe settings0 w p cnt
      = (Except.error (PyErr.attributeError (no_attribute_msg "SUPPORTED_AUDIO_FORMATS")),
         cnt) ∧
    summarize settings0 w model text cnt
      = (Except.error (PyErr.exception
          ("Summarization failed: " ++ no_attribute_msg "SUMMARY_PROMPT_TEMPLATE")), cnt) := by
  have htx : text ≠ "" := by
    intro he
    exact ht (by rw [he]; rfl)
  have hc : (text == "" || pyStrip text == "") = false := by
    simp [htx, ht]
  refine ⟨rfl, rfl, rfl, rfl, ?_, ?_⟩
  · have hval : validate_audio_file settings0 w.fileExists p
        = Except.error (PyErr.attributeError (no_attribute_msg "SUPPORTED_AUDIO_FORMATS")) := by
      simp [validate_audio_file, hex, attrOrError, settings0, Settings.ofEnv]
    simp [transcribe, hval, Eff.throw]
  · simp [summarize, hc, Eff.tryCatch, Eff.run_bind, Eff.liftE, attrOrError,
      settings0, Settings.ofEnv, summarize_try_body, Eff.throw, PyErr.msg]

/-- Witness for C10: an existing `a.mp3` and the text `"hi"`. -/
theorem settings_missing_attributes_consequences_witness :
    transcribe settings0 Wall "a.mp3" Calls.init
      = (Except.error (PyErr.attributeError (no_attribute_msg "SUPPORTED_AUDIO_FORMATS")),
         Calls.init) ∧
    summarize settings0 Wall "gpt-3.5-turbo" "hi" Calls.init
      = (Except.error (PyErr.exception
          ("Summarization failed: " ++ no_attribute_msg "SUMMARY_PROMPT_TEMPLATE")),
         Calls.init) :=
  ⟨(settings_missing_attributes_consequences Wall "a.mp3" "gpt-3.5-turbo" "hi"
      Calls.init rfl (by decide)).2.2.2.2.1,
   (settings_missing_attributes_consequences Wall "a.mp3" "gpt-3.5-turbo" "hi"
      Calls.init rfl (by decide)).2.2.2.2.2⟩

/-- Witness for C2 at a concrete stub triple: the short-circuit fires for the
`None` audio reference with the counters untouched. -/
theorem process_meeting_missing_input_witness :
    process_meeting (fun _ => Pure.pure "t") none (fun _ => Pure.pure "S") none Calls.init
      = (Except.ok (upload_warning, ""), Calls.init) :=
  (process_meeting_missing_input (fun _ => Pure.pure "t") none (fun _ => Pure.pure "S")
    Calls.init).1

/-- Witness for C5's amended theorem at a concrete transcript. -/
theorem chain_invoke_always_missing_text_witness :
    chain_invoke lcTemplate0 "meeting transcript" = Except.error (PyErr.keyError "text") :=
  chain_invoke_always_missing_text.2 "meeting transcript"

/-- Witness for C8's evaluation at a concrete world. -/
theorem summarize_missing_template_eval_witness :
    summarize settings0 Wall "gpt-3.5-turbo" "hello" Calls.init
      = (Except.error (PyErr.exception
          ("Summarization failed: " ++ no_attribute_msg "SUMMARY_PROMPT_TEMPLATE")),
         Calls.init) :=
  summarize_missing_template_eval Wall "gpt-3.5-turbo" Calls.init
